import Mathlib

/-!
Verification of the command routing / rate limiting layer and the feed and
scheduler subsystem of the pump19 chat bot.

Shallow embedding notes:
* Monotonic clock values (`loop.time()`, Python floats) are embedded as
  integers `ℤ`; every property proved here is about orderings and
  differences of clock values, for which the integers are a faithful
  linear time axis.  The single fractional constant of the source (the
  `0.1` second sleep margin in `auto_update`) is kept exact as a rational
  in the sleep payload.
* `CommandHandler.Limiter` keeps per-wrapped-action state
  `{_spam_span, _spam_last}`; one invocation is one `limiterCall` step.
  In the source the check `(now - wrapper._spam_last) > wrapper._spam_span`
  and the write `wrapper._spam_last = now` happen with no suspension point
  between them, so one invocation is embedded as a single atomic step.
* A compiled regular expression is embedded by its `fullmatch` behaviour:
  a function from the input string to `Option` of the group dictionary
  (named group ↦ optional captured text).  The concrete patterns of
  `CMD_REGEX` are translated individually below.
* `functools.partial(callback, **match.groupdict())` is embedded as the
  pair `(callback, groupdict)`.
-/

/-- State of one `Limiter`-wrapped action: `wrapper._spam_span` and
`wrapper._spam_last` from `command.py`. -/
structure LimiterState where
  spamSpan : ℤ
  spamLast : ℤ
deriving DecidableEq

/-- Wrap-time state: `wrapper._spam_span = self.span`, `wrapper._spam_last = 0.0`. -/
def limiterInit (span : ℤ) : LimiterState :=
  { spamSpan := span, spamLast := 0 }

/-- One invocation of the wrapped action at monotonic time `now`
(`Limiter.__call__.wrapper`): if `now - _spam_last > _spam_span` the
timestamp is written and the body runs (`true`); otherwise the call is
suppressed (`false`). Check and write form one atomic step, as in the
source where no suspension point separates them. -/
def limiterCall (st : LimiterState) (now : ℤ) : LimiterState × Bool :=
  if now - st.spamLast > st.spamSpan then
    ({ st with spamLast := now }, true)
  else
    (st, false)

/-- Two consecutive invocations of a freshly wrapped action, at times
`t1` then `t2`; result is how many times the body ran. -/
def limiterTwo (span t1 t2 : ℤ) : Nat :=
  let r1 := limiterCall (limiterInit span) t1
  let r2 := limiterCall r1.1 t2
  (cond r1.2 1 0) + (cond r2.2 1 0)

/-- One entry of `CommandRouter.routes`: a compiled regex (embedded by its
`fullmatch` function returning the group dictionary) and a callback. -/
structure Route (H : Type) where
  fullmatch : String → Option (List (String × Option String))
  callback : H

/-- `CommandRouter.get_route`: scan routes in registration order; on the
first full match return the callback bound with the group dictionary
(`functools.partial(callback, **match.groupdict())`); otherwise `none`. -/
def get_route {H : Type} (routes : List (Route H)) (s : String) :
    Option (H × List (String × Option String)) :=
  match routes with
  | [] => none
  | r :: rest =>
    match r.fullmatch s with
    | some m => some (r.callback, m)
    | none => get_route rest s

/-- Group dictionary type returned by a full match: named group ↦
captured text (`none` when an optional group did not participate). -/
def Groups : Type := List (String × Option String)

/-- Character-list prefix test (kernel-computable embedding of Python
`str.startswith`). -/
def charsPrefix : List Char → List Char → Bool
  | [], _ => true
  | _ :: _, [] => false
  | c :: cs, d :: ds => c == d && charsPrefix cs ds

/-- `s.startswith(p)` on Python strings. -/
def strStartsWith (s p : String) : Bool :=
  charsPrefix p.data s.data

/-- `len(s)` on Python strings (number of characters). -/
def strLength (s : String) : Nat :=
  s.data.length

/-- `s[n:]` on Python strings. -/
def strDrop (s : String) (n : Nat) : String :=
  String.mk (s.data.drop n)

/-- Python `\w` under `re.ASCII`: `[a-zA-Z0-9_]`. -/
def isWordChar (c : Char) : Bool :=
  c.isAlphanum || c == '_'

/-- Full-match of `^patreon$`: exactly the string `"patreon"`, no groups. -/
def patreonFM (s : String) : Option (List (String × Option String)) :=
  if s = "patreon" then some [] else none

/-- Full-match of `^latest(?: (?P<feed>video|podcast|broadcast|highlight))?$`:
its language is exactly `latest` and `latest ` followed by one of the four
feed words; the group dictionary always carries the `feed` key. -/
def latestFM (s : String) : Option (List (String × Option String)) :=
  if s = "latest" then some [("feed", none)]
  else if s = "latest video" then some [("feed", some "video")]
  else if s = "latest podcast" then some [("feed", some "podcast")]
  else if s = "latest broadcast" then some [("feed", some "broadcast")]
  else if s = "latest highlight" then some [("feed", some "highlight")]
  else none

/-- Full-match of `^codefall$`. -/
def codefallFM (s : String) : Option (List (String × Option String)) :=
  if s = "codefall" then some [] else none

/-- Full-match of `^lrrmc$`. -/
def lrrmcFM (s : String) : Option (List (String × Option String)) :=
  if s = "lrrmc" then some [] else none

/-- Full-match of `^mumble$`. -/
def mumbleFM (s : String) : Option (List (String × Option String)) :=
  if s = "mumble" then some [] else none

/-- Full-match of `^rdio (?P<user>\w+)$` (ASCII): the literal `rdio `
followed by one or more word characters, captured as `user`. -/
def rdioFM (s : String) : Option (List (String × Option String)) :=
  if strStartsWith s "rdio " then
    let u := strDrop s 5
    if strLength u > 0 && u.data.all isWordChar then some [("user", some u)]
    else none
  else none

/-- Full-match of `^last\.fm (?P<user>\w+)$` (ASCII): the literal
`last.fm ` followed by one or more word characters, captured as `user`. -/
def lastfmFM (s : String) : Option (List (String × Option String)) :=
  if strStartsWith s "last.fm " then
    let u := strDrop s 8
    if strLength u > 0 && u.data.all isWordChar then some [("user", some u)]
    else none
  else none

/-- Full-match of `^song$`. -/
def songFM (s : String) : Option (List (String × Option String)) :=
  if s = "song" then some [] else none

/-- Full-match of `^help$`. -/
def helpFM (s : String) : Option (List (String × Option String)) :=
  if s = "help" then some [] else none

/-- The route table built by `setup_routing` from `CMD_REGEX`, in the
insertion order of the dict; every `handle_command_<key>` exists, so all
nine routes are registered.  Callbacks are identified by their method
name. -/
def cmdRoutes : List (Route String) :=
  [⟨patreonFM, "handle_command_patreon"⟩,
   ⟨latestFM, "handle_command_latest"⟩,
   ⟨codefallFM, "handle_command_codefall"⟩,
   ⟨lrrmcFM, "handle_command_lrrmc"⟩,
   ⟨mumbleFM, "handle_command_mumble"⟩,
   ⟨rdioFM, "handle_command_rdio"⟩,
   ⟨lastfmFM, "handle_command_lastfm"⟩,
   ⟨songFM, "handle_command_song"⟩,
   ⟨helpFM, "handle_command_help"⟩]

/-- Outcome of a dispatched PRIVMSG event: the routed callback, its bound
keyword arguments from the group dictionary, and the positional arguments
`(target, nick)` that `handle_privmsg` supplies at call time. -/
structure Dispatch (H : Type) where
  handler : H
  kwargs : List (String × Option String)
  target : String
  nick : String
deriving DecidableEq

/-- `CommandHandler.handle_privmsg`: ignore the event unless the message
starts with the configured command character and has length at least 2;
strip one leading character, substitute the reply target by the sender
when the event was a query addressed to the bot's own nickname, and look
up the command in the router.  `none` means no handler is invoked and
hence no outbound send happens for this event. -/
def handle_privmsg {H : Type} (pfx nickname : String) (routes : List (Route H))
    (nick target message : String) : Option (Dispatch H) :=
  if ¬ strStartsWith message pfx ∨ strLength message < 2 then none
  else
    let cmd := strDrop message 1
    let target1 := if target = nickname then nick else target
    match get_route routes cmd with
    | some (cb, m) => some ⟨cb, m, target1, nick⟩
    | none => none

/-- One latest feed entry as stored by `get_latest`: `url` is
`latest.id`, `title` is `latest.title`, and the parsed publication
datetime is kept abstractly as its ISO rendering. -/
structure Entry where
  url : String
  title : String
  time : String
deriving DecidableEq

/-- One raw item of a parsed feed (`feed.entries[i]` from `feedparser`). -/
structure RawEntry where
  id : String
  title : String
  published : String
deriving DecidableEq

/-- Per-feed updater record (`self.updater[feed]`): the task handle, the
`last` update clock value and the stored `latest` entry.  The per-feed
lock is embedded by treating the whole locked block as one atomic step. -/
structure FeedRecord where
  task : Nat
  last : ℤ
  latest : Option Entry
deriving DecidableEq

/-- Association-list lookup, embedding Python dict access. -/
def alookup {α : Type} (l : List (String × α)) (k : String) : Option α :=
  match l with
  | [] => none
  | (k1, v) :: rest => if k1 = k then some v else alookup rest k

/-- Association-list key update, embedding Python dict assignment for a
key already present. -/
def aset {α : Type} (l : List (String × α)) (k : String) (v : α) :
    List (String × α) :=
  match l with
  | [] => []
  | (k1, w) :: rest =>
    if k1 = k then (k, v) :: aset rest k v else (k1, w) :: aset rest k v

/-- `RSS_FEEDS` from `lrrfeed.py`: feed id ↦ (title, url). -/
def RSS_FEEDS : List (String × String × String) :=
  [("video", "LRR Video Feed", "http://feeds.feedburner.com/Loadingreadyrun"),
   ("podcast", "LRRcast Feed", "http://loadingreadyrun.com/lrrcasts/feed/all")]

/-- `LRRFeedParser.get_latest` applied to the parsed entry list of the
fetched document.  The source logs a warning when the list is empty but
then evaluates `feed.entries[0]` unconditionally, so an empty list raises
`IndexError`; a raised exception is embedded as `Except.error`. -/
def get_latest (entries : List RawEntry) : Except String Entry :=
  match entries with
  | [] => Except.error "IndexError: list index out of range"
  | e :: _ => Except.ok ⟨e.id, e.title, e.published⟩

/-- `LRRFeedParser.update feed` with the fetched document parsed to
`fetched`, at clock value `now`, with announce flag `ann` (`true` is the
default used by `auto_update` and by the `latest` command).  Unknown
feeds are ignored with a warning.  Otherwise, under the feed's lock, the
new entry is fetched, stored together with the timestamp, and the
returned flag says whether `announce(feed)` was triggered: only when a
previous entry existed, its `url` differs, and `ann` is set.  An
exception of `get_latest` propagates. -/
def update (updater : List (String × FeedRecord)) (feed : String)
    (fetched : List RawEntry) (now : ℤ) (ann : Bool) :
    Except String (List (String × FeedRecord) × Bool) :=
  match alookup updater feed, alookup RSS_FEEDS feed with
  | some rec, some _ =>
    match get_latest fetched with
    | Except.error e => Except.error e
    | Except.ok newEntry =>
      let updater1 := aset updater feed
        { rec with last := now, latest := some newEntry }
      match rec.latest with
      | none => Except.ok (updater1, false)
      | some old => Except.ok (updater1, (old.url != newEntry.url) && ann)
  | _, _ => Except.ok (updater, false)

/-- `LRRFeedParser.announce feed (target)`: `none` when nothing is sent
(unknown feed, or no stored entry yet); otherwise the send target
(`none` = broadcast via `client.announce`) and the formatted line. -/
def announce (updater : List (String × FeedRecord)) (feed : String)
    (target : Option String) : Option (Option String × String) :=
  match alookup updater feed, alookup RSS_FEEDS feed with
  | some rec, some meta =>
    match rec.latest with
    | none => none
    | some entry =>
      some (target, meta.1 ++ ": " ++ entry.title ++ " (" ++ entry.url ++
        ") [" ++ entry.time ++ "Z]")
  | _, _ => none

/-- Outcome of one iteration of the `while True` loop in
`LRRFeedParser.auto_update`: sleep and continue, update and continue, or
an uncaught exception — the `try` around the loop catches only
`CancelledError`, so any other exception ends the loop and the task. -/
inductive LoopOutcome
  | sleep (naptime : ℚ)
  | updated (st : List (String × FeedRecord)) (announced : Bool)
  | crashed (err : String)
deriving DecidableEq

/-- One iteration of `LRRFeedParser.auto_update feed` at clock value
`now`, where a due update fetches a document parsing to `fetched`. -/
def auto_update_cycle (updater : List (String × FeedRecord)) (feed : String)
    (delay now : ℤ) (fetched : List RawEntry) : LoopOutcome :=
  match alookup updater feed with
  | none => LoopOutcome.crashed "KeyError"
  | some rec =>
    let nxt := rec.last + delay
    if nxt > now then
      LoopOutcome.sleep (1 / 10 + ((nxt : ℚ) - (now : ℚ)))
    else
      match update updater feed fetched now true with
      | Except.error e => LoopOutcome.crashed e
      | Except.ok (st, ann) => LoopOutcome.updated st ann

/-- `LRRFeedParser.start` restricted to one feed id: when the feed is not
yet in `updater` a fresh record (new task, `last = 0.0`, `latest = None`)
is inserted; otherwise a warning is logged (`true`) and nothing changes. -/
def lrrfeed_start_feed (updater : List (String × FeedRecord)) (feed : String)
    (tid : Nat) : List (String × FeedRecord) × Bool :=
  if (alookup updater feed).isSome then (updater, true)
  else ((feed, ⟨tid, 0, none⟩) :: updater, false)

/-- `ScheduLRR` state: the task handle (`self.task`, `none` when idle) and
the cron cursor, abstracted as the number of `get_next` calls made on the
`croniter` object. -/
structure SchedState where
  task : Option Nat
  cronPos : Nat
deriving DecidableEq

/-- `ScheduLRR.start`: a warning is logged when a task is already active
(the returned flag), but the method then proceeds unconditionally — it
advances the cron cursor with `get_next` and assigns a freshly created
task to `self.task`. -/
def schedulrr_start (st : SchedState) (newTask : Nat) : SchedState × Bool :=
  ({ task := some newTask, cronPos := st.cronPos + 1 }, st.task.isSome)

/-- `ScheduLRR.stop`: cancel and clear the task when active. -/
def schedulrr_stop (st : SchedState) : SchedState :=
  match st.task with
  | none => st
  | some _ => { st with task := none }

/-- Unfolding equation for `limiterCall`. -/
theorem limiterCall_eq (st : LimiterState) (now : ℤ) :
    limiterCall st now =
      if now - st.spamLast > st.spamSpan then ({ st with spamLast := now }, true)
      else (st, false) := rfl

/-- Unfolding equation for `limiterInit`. -/
theorem limiterInit_eq (span : ℤ) : limiterInit span = ⟨span, 0⟩ := rfl

/-- Unfolding equation for `limiterCall` on a literal state. -/
theorem limiterCall_mk (span last now : ℤ) :
    limiterCall ⟨span, last⟩ now =
      if now - last > span then (⟨span, now⟩, true) else (⟨span, last⟩, false) := rfl

/-- Membership characterization of `alookup`: a successful lookup of a key
that is present stays successful after `aset` and returns the new value. -/
theorem alookup_aset_self {α : Type} (l : List (String × α)) (k : String) (v : α)
    (h : (alookup l k).isSome) : alookup (aset l k v) k = some v := by
  induction l with
  | nil => simp [alookup] at h
  | cons p rest ih =>
    obtain ⟨k1, w⟩ := p
    by_cases hk : k1 = k
    · subst hk
      simp [alookup, aset]
    · simp [alookup, aset, hk] at h ⊢
      exact ih h

/-- A failed scan means every route fails to match. -/
theorem get_route_none_iff {H : Type} (routes : List (Route H)) (s : String) :
    get_route routes s = none ↔ ∀ r ∈ routes, r.fullmatch s = none := by
  induction routes with
  | nil => simp [get_route]
  | cons r rest ih =>
    cases hr : r.fullmatch s with
    | some m => simp [get_route, hr]
    | none => simp [get_route, hr, ih]

/-- The scan returns the first route (in registration order) whose pattern
fully matches, bound with that match's group dictionary. -/
theorem get_route_first {H : Type} (routes : List (Route H)) (s : String) :
    ∀ i r m, routes[i]? = some r → r.fullmatch s = some m →
      (∀ r2 ∈ routes.take i, r2.fullmatch s = none) →
      get_route routes s = some (r.callback, m) := by
  induction routes with
  | nil => intro i r m h; simp at h
  | cons a rest ih =>
    intro i r m hget hm hprev
    cases i with
    | zero =>
      simp only [List.getElem?_cons_zero, Option.some.injEq] at hget
      subst hget
      simp [get_route, hm]
    | succ j =>
      have ha : a.fullmatch s = none := hprev a (by simp)
      simp only [get_route, ha]
      exact ih j r m (by simpa using hget) hm
        (fun r2 hr2 => hprev r2 (by simp [List.take_succ_cons, hr2]))

/-- C1: for every fixed route table and every input string, `get_route`
returns the handler of the first route in registration order whose
pattern fully matches the whole input, bound with the group dictionary of
named captures; when no route fully matches it returns `none`; and the
result is deterministic (it is a pure function of the table and the
input, so repeated calls agree). -/
theorem get_route_resolves_first_full_match {H : Type}
    (routes : List (Route H)) (s : String) :
    (get_route routes s = none ↔ ∀ r ∈ routes, r.fullmatch s = none) ∧
    (∀ i r m, routes[i]? = some r → r.fullmatch s = some m →
      (∀ r2 ∈ routes.take i, r2.fullmatch s = none) →
      get_route routes s = some (r.callback, m)) ∧
    get_route routes s = get_route routes s :=
  ⟨get_route_none_iff routes s, get_route_first routes s, rfl⟩

/-- Witness for C1 on the real route table: `latest video` resolves to
the `latest` handler (the second registered route; the first, `patreon`,
does not match) with capture `feed = video`. -/
theorem get_route_resolves_first_full_match_witness :
    get_route cmdRoutes "latest video" =
      some ("handle_command_latest", [("feed", some "video")]) := by
  refine (get_route_resolves_first_full_match cmdRoutes "latest video").2.1 1
    (Route.mk latestFM "handle_command_latest") [("feed", some "video")] rfl rfl ?_
  intro r2 hr2
  rw [show cmdRoutes.take 1 = [Route.mk patreonFM "handle_command_patreon"] from rfl]
    at hr2
  rw [List.mem_singleton.mp hr2]
  rfl

/-- The router's matches are full-string matches, not prefix matches:
inputs that properly extend a matching command resolve to nothing. -/
theorem get_route_rejects_proper_extensions :
    get_route cmdRoutes "latest videos" = none ∧
    get_route cmdRoutes "helpme" = none ∧
    latestFM "latest video" = some [("feed", some "video")] := by decide

/-- C2 (amended): provided the first invocation passes the gate
(`t1 - last > span`, with `last = 0` for a freshly wrapped action), two
invocations separated by **at most** the span execute the body exactly
once, and two invocations separated by **strictly more** than the span
both execute it.  The set-and-compare uses a strict `>`, so a separation
of exactly the span still suppresses the second call. -/
theorem limiter_pair_executions (span t1 t2 : ℤ) (h1 : t1 - 0 > span) :
    (t2 - t1 ≤ span → limiterTwo span t1 t2 = 1) ∧
    (t2 - t1 > span → limiterTwo span t1 t2 = 2) := by
  have hfst : limiterCall (limiterInit span) t1 =
      (⟨span, t1⟩, true) := by
    rw [limiterInit_eq, limiterCall_mk, if_pos h1]
  constructor
  · intro h2
    simp only [limiterTwo, hfst]
    rw [limiterCall_mk, if_neg (by omega : ¬ t2 - t1 > span)]
    rfl
  · intro h2
    simp only [limiterTwo, hfst]
    rw [limiterCall_mk, if_pos h2]
    rfl

/-- Counterexample to C2 as stated: with the default span 15, a first
invocation at time 16 and a second at time 31 are separated by exactly
the span (`31 - 16 ≥ 15`), yet only one execution of the body occurs,
because the source gate is the strict `(now - last) > span`. -/
theorem limiter_pair_executions_counterexample :
    ((31 : ℤ) - 16 ≥ 15) ∧ limiterTwo 15 16 31 = 1 := by decide

/-- Witness for C2 (amended): span 15, invocations at 16 and 40 are
separated by more than the span and both run. -/
theorem limiter_pair_executions_witness :
    ((16 : ℤ) - 0 > 15) ∧ ((40 : ℤ) - 16 > 15) ∧ limiterTwo 15 16 40 = 2 :=
  ⟨by decide, by decide,
    (limiter_pair_executions 15 16 40 (by decide)).2 (by decide)⟩

/-- C8 (amended): the per-action state is created at wrap time with
`last_invocation = 0` (epoch zero of the monotonic clock), and the first
invocation executes the body **iff** its clock value exceeds the span
(`t - 0 > span`) — not unconditionally: a first invocation within `span`
of the clock's epoch is suppressed. -/
theorem limiter_first_call_iff (span t : ℤ) :
    (limiterInit span).spamLast = 0 ∧
    ((limiterCall (limiterInit span) t).2 = true ↔ t - 0 > span) := by
  refine ⟨rfl, ?_⟩
  rw [limiterInit_eq, limiterCall_mk]
  by_cases h : t - 0 > span
  · rw [if_pos h]
    simpa using h
  · rw [if_neg h]
    simpa using h

/-- Counterexample to C8 as stated: with span 15, a first invocation at
monotonic time 10 does not execute the body. -/
theorem limiter_first_call_iff_counterexample :
    (limiterCall (limiterInit 15) 10).2 = false := by decide

/-- Witness for C8 (amended): span 15, first invocation at time 16
executes; and the wrap-time state has `last_invocation = 0`. -/
theorem limiter_first_call_iff_witness :
    (limiterInit 15).spamLast = 0 ∧ (limiterCall (limiterInit 15) 16).2 = true :=
  ⟨(limiter_first_call_iff 15 16).1, (limiter_first_call_iff 15 16).2.mpr (by decide)⟩

/-- C9: when an invocation passes the gate, `last_invocation` is already
equal to that invocation's time in the state produced by the atomic
check-and-write step (i.e. the write happens before the body is awaited);
consequently two invocations whose times differ by at most the span can
never both pass the gate. -/
theorem limiter_no_double_entry (st : LimiterState) (t1 t2 : ℤ)
    (h : t2 - t1 ≤ st.spamSpan) :
    ((limiterCall st t1).2 = true → (limiterCall st t1).1.spamLast = t1) ∧
    ¬ ((limiterCall st t1).2 = true ∧
       (limiterCall (limiterCall st t1).1 t2).2 = true) := by
  rw [limiterCall_eq]
  by_cases h1 : t1 - st.spamLast > st.spamSpan
  · rw [if_pos h1]
    refine ⟨fun _ => rfl, ?_⟩
    rintro ⟨-, h2⟩
    rw [limiterCall_eq, if_neg (show ¬ t2 - t1 > st.spamSpan by omega)] at h2
    exact Bool.false_ne_true h2
  · rw [if_neg h1]
    simp

/-- Witness for C9: span 15, last invocation at 0; invocations at 16 and
20 (separated by 4 ≤ 15) cannot both run, and the first one's passing
step writes `last_invocation = 16`. -/
theorem limiter_no_double_entry_witness :
    ((20 : ℤ) - 16 ≤ (15 : ℤ)) ∧
    ((limiterCall ⟨15, 0⟩ 16).2 = true → (limiterCall ⟨15, 0⟩ 16).1.spamLast = 16) ∧
    ¬ ((limiterCall ⟨15, 0⟩ 16).2 = true ∧
       (limiterCall (limiterCall ⟨15, 0⟩ 16).1 20).2 = true) :=
  ⟨by decide, (limiter_no_double_entry ⟨15, 0⟩ 16 20 (by decide)).1,
    (limiter_no_double_entry ⟨15, 0⟩ 16 20 (by decide)).2⟩

/-- C6: an inbound PRIVMSG whose text does not start with the configured
command character, or whose length is below 2, is ignored: no handler is
invoked (and hence the dispatcher performs no outbound send for the
event). -/
theorem handle_privmsg_ignores_unprefixed {H : Type} (pfx nickname : String)
    (routes : List (Route H)) (nick target message : String)
    (h : ¬ strStartsWith message pfx = true ∨ strLength message < 2) :
    handle_privmsg pfx nickname routes nick target message = none := by
  unfold handle_privmsg
  rw [if_pos h]

/-- Witness for C6: a message without the `&` command character produces
no dispatch, and likewise a one-character message. -/
theorem handle_privmsg_ignores_unprefixed_witness :
    handle_privmsg "&" "pump19" cmdRoutes "alice" "#desertbus" "hello" = none ∧
    handle_privmsg "&" "pump19" cmdRoutes "alice" "#desertbus" "&" = none :=
  ⟨handle_privmsg_ignores_unprefixed "&" "pump19" cmdRoutes "alice" "#desertbus"
      "hello" (Or.inl (by decide)),
    handle_privmsg_ignores_unprefixed "&" "pump19" cmdRoutes "alice" "#desertbus"
      "&" (Or.inr (by decide))⟩

/-- C7: whenever `handle_privmsg` dispatches to a handler, the reply
target handed to the handler is the sender when the inbound target was
the bot's own nickname (a query) and the unchanged target otherwise; and
the routing itself is performed on the prefix-stripped text alone, so the
substitution precedes and does not influence the route lookup. -/
theorem handle_privmsg_query_reply_target {H : Type} (pfx nickname : String)
    (routes : List (Route H)) (nick target message : String) (d : Dispatch H)
    (h : handle_privmsg pfx nickname routes nick target message = some d) :
    d.target = (if target = nickname then nick else target) ∧
    d.nick = nick ∧
    get_route routes (strDrop message 1) = some (d.handler, d.kwargs) := by
  unfold handle_privmsg at h
  by_cases hg : ¬ strStartsWith message pfx = true ∨ strLength message < 2
  · rw [if_pos hg] at h
    cases h
  · rw [if_neg hg] at h
    simp only [] at h
    cases hr : get_route routes (strDrop message 1) with
    | none => rw [hr] at h; cases h
    | some p =>
      obtain ⟨cb, m⟩ := p
      rw [hr] at h
      cases h
      exact ⟨rfl, rfl, rfl⟩

/-- Witness for C7: a query (`target = "pump19"`, the bot's nickname)
carrying `&help` dispatches the help handler with the sender `alice` as
effective reply target, and routing happened on the stripped text
`help`. -/
theorem handle_privmsg_query_reply_target_witness :
    (Dispatch.mk "handle_command_help" [] "alice" "alice").target =
      (if ("pump19" : String) = "pump19" then "alice" else "pump19") ∧
    (Dispatch.mk "handle_command_help" [] "alice" "alice").nick = "alice" ∧
    get_route cmdRoutes (strDrop "&help" 1) =
      some ((Dispatch.mk "handle_command_help" [] "alice" "alice").handler,
        (Dispatch.mk "handle_command_help" [] "alice" "alice").kwargs) :=
  handle_privmsg_query_reply_target "&" "pump19" cmdRoutes "alice" "pump19" "&help"
    ⟨"handle_command_help", [], "alice", "alice"⟩ (by decide)

/-- C5: for a tracked feed whose fetch succeeds (nonempty parsed entry
list), `update` with the default announce flag stores the fetched entry
together with the update timestamp; the first-ever call (no stored entry)
never triggers `announce`, and a later call triggers `announce` exactly
when the stored entry's `url` differs from the new one (string
inequality).  The whole step is the body of the feed's `with lock` block,
embedded as one atomic transition. -/
theorem update_stores_and_announces (updater : List (String × FeedRecord))
    (feed : String) (rec : FeedRecord) (e : RawEntry) (rest : List RawEntry)
    (now : ℤ) (htrack : alookup updater feed = some rec)
    (hrss : (alookup RSS_FEEDS feed).isSome) :
    (rec.latest = none →
      update updater feed (e :: rest) now true =
        Except.ok (aset updater feed
          { rec with last := now, latest := some ⟨e.id, e.title, e.published⟩ },
          false)) ∧
    (∀ old, rec.latest = some old →
      update updater feed (e :: rest) now true =
        Except.ok (aset updater feed
          { rec with last := now, latest := some ⟨e.id, e.title, e.published⟩ },
          old.url != e.id)) ∧
    alookup (aset updater feed
        { rec with last := now, latest := some ⟨e.id, e.title, e.published⟩ }) feed =
      some { rec with last := now, latest := some ⟨e.id, e.title, e.published⟩ } := by
  obtain ⟨meta, hmeta⟩ := Option.isSome_iff_exists.mp hrss
  refine ⟨?_, ?_, ?_⟩
  · intro hnone
    unfold update
    rw [htrack, hmeta]
    simp only [get_latest, hnone]
  · intro old hold
    unfold update
    rw [htrack, hmeta]
    simp only [get_latest, hold, Bool.and_true]
  · exact alookup_aset_self updater feed _ (by rw [htrack]; rfl)

/-- Witness state for C5: the `video` feed with a stored entry `u1`. -/
def rec0 : FeedRecord :=
  ⟨1, 0, some ⟨"u1", "t1", "p1"⟩⟩

/-- Witness updater map for C5 holding only the `video` feed. -/
def upd0 : List (String × FeedRecord) :=
  [("video", rec0)]

/-- Witness raw feed item for C5 with a changed identifying id `u2`. -/
def raw2 : RawEntry :=
  ⟨"u2", "t2", "p2"⟩

/-- Witness for C5: updating the tracked `video` feed whose stored entry
has url `u1` with a fetched entry `u2` stores the new entry with the
timestamp and triggers the announcement (`"u1" != "u2"`). -/
theorem update_stores_and_announces_witness :
    update upd0 "video" [raw2] 100 true =
      Except.ok (aset upd0 "video"
        { rec0 with last := 100, latest := some ⟨raw2.id, raw2.title, raw2.published⟩ },
        (("u1" : String) != "u2")) :=
  (update_stores_and_announces upd0 "video" rec0 raw2 [] 100 rfl (by decide)).2.1
    ⟨"u1", "t1", "p1"⟩ rfl

/-- C10: `announce` sends nothing when the feed is not tracked (missing
from the updater map or from `RSS_FEEDS`) or when no entry has ever been
stored for it; in particular no announcement can be emitted before the
first successful update. -/
theorem announce_requires_tracked_entry (updater : List (String × FeedRecord))
    (feed : String) (target : Option String)
    (h : alookup updater feed = none ∨ alookup RSS_FEEDS feed = none ∨
         ∃ rec, alookup updater feed = some rec ∧ rec.latest = none) :
    announce updater feed target = none := by
  unfold announce
  rcases h with h | h | ⟨rec, hrec, hlat⟩
  · rw [h]
  · rw [h]
    cases alookup updater feed <;> rfl
  · rw [hrec]
    cases hm : alookup RSS_FEEDS feed with
    | none => rfl
    | some meta => simp [hlat]
  
/-- Witness for C10: an empty updater map yields no announcement for the
`video` feed, and a tracked feed with no stored entry yields none
either. -/
theorem announce_requires_tracked_entry_witness :
    announce [] "video" none = none ∧
    announce [("video", ⟨1, 0, none⟩)] "video" (some "#desertbus") = none :=
  ⟨announce_requires_tracked_entry [] "video" none (Or.inl rfl),
    announce_requires_tracked_entry [("video", ⟨1, 0, none⟩)] "video"
      (some "#desertbus")
      (Or.inr (Or.inr ⟨⟨1, 0, none⟩, rfl, rfl⟩))⟩

/-- C3 (code bug): a due automatic-update cycle for the tracked `video`
feed whose fetched document parses to zero entries does not continue to
the next tick — `get_latest` evaluates `feed.entries[0]` on the empty
list, the resulting `IndexError` propagates through `update` and
`auto_update` (whose `try` catches only `CancelledError`), and the
updater task terminates. -/
theorem auto_update_crashes_on_empty_feed :
    auto_update_cycle [("video", ⟨1, 0, none⟩)] "video" 300 400 [] =
      LoopOutcome.crashed "IndexError: list index out of range" := by decide

/-- C4 (code bug): `ScheduLRR.start` on an instance whose task is already
active logs the warning (flag `true`) but is not a no-op: it advances the
cron cursor and replaces the task handle with a freshly created task
(here: active task 1, cursor 5, new task 2 — afterwards the task is 2 and
the cursor 6). -/
theorem schedulrr_start_twice_not_noop :
    (schedulrr_start ⟨some 1, 5⟩ 2).2 = true ∧
    (schedulrr_start ⟨some 1, 5⟩ 2).1.task = some 2 ∧
    (schedulrr_start ⟨some 1, 5⟩ 2).1.cronPos = 6 := by decide

/-- In contrast to `ScheduLRR.start`, the feed poller's `start` really is
a warn-and-no-op on a feed whose updater entry already exists. -/
theorem lrrfeed_start_feed_noop (updater : List (String × FeedRecord))
    (feed : String) (tid : Nat) (h : (alookup updater feed).isSome) :
    lrrfeed_start_feed updater feed tid = (updater, true) := by
  unfold lrrfeed_start_feed
  rw [if_pos h]
